import Mathlib

/-!
Verification development for the rendercanvas scheduling subsystem:
the draw scheduler (src/rendercanvas/_scheduler.py), the loop lifecycle
(src/rendercanvas/_loop.py), the canvas group (src/rendercanvas/base.py)
and the micro async executor (src/rendercanvas/utils/asyncadapter.py).

Time and fps values are embedded as rationals; Python float arithmetic on
these quantities is modelled as exact arithmetic. Python exceptions that a
function can raise to its caller are modelled as an Option String
(none meaning no exception) or an Except value.
-/

/-- Modelled from the spec: the LoopState enum. The module _enums.py that
defines it is not among the sources; the spec lists the members
off, ready, active, running, interactive. -/
inductive LoopState
  | off
  | ready
  | active
  | running
  | interactive
deriving DecidableEq

/-- Modelled from the spec: the member values of the UpdateMode enum from the
missing _enums.py module: manual, ondemand, continuous, fastest. Used by the
membership test in Scheduler.set_update_mode. -/
def updateModeMembers : List String := ["manual", "ondemand", "continuous", "fastest"]

/-- State of a Scheduler object (src/rendercanvas/_scheduler.py). The field
ready_for_present embeds the _ready_for_present attribute: none for None,
some b for an Event whose _is_set flag is b. draw_stats embeds _draw_stats,
a pair (count, last_time). -/
structure SchedulerState where
  enabled : Bool
  mode : String
  min_fps : ℚ
  max_fps : ℚ
  draw_requested : Bool
  ready_for_present : Option Bool
  draw_stats : ℕ × ℚ
deriving DecidableEq

/-- Embeds Scheduler.set_enabled (lines 96-99): stores the flag and, when
enabling, sets _draw_requested. -/
def set_enabled (s : SchedulerState) (enabled : Bool) : SchedulerState :=
  let s1 := { s with enabled := enabled }
  if s1.enabled then { s1 with draw_requested := true } else s1

/-- Embeds Scheduler.request_draw (lines 101-104): just sets the flag. -/
def request_draw (s : SchedulerState) : SchedulerState :=
  { s with draw_requested := true }

/-- Embeds Scheduler.on_about_to_draw (lines 222-223). -/
def on_about_to_draw (s : SchedulerState) : SchedulerState :=
  { s with draw_requested := false }

/-- Embeds Scheduler.on_cancel_draw (lines 217-220): if _ready_for_present is
not None, set the event and drop the reference. The set event object itself
carries no further observable state here (see the event-wait note below). -/
def on_cancel_draw (s : SchedulerState) : SchedulerState :=
  if s.ready_for_present.isSome then { s with ready_for_present := none } else s

/-- Embeds Scheduler.on_draw_done (lines 225-242): set and drop the completion
event, then update the rolling fps stats; now stands for the
time.perf_counter() readings in the body (taken as one instant). Returns the
new state and the optional frame_time return value. -/
def on_draw_done (s : SchedulerState) (now : ℚ) : SchedulerState × Option ℚ :=
  let s1 := if s.ready_for_present.isSome then { s with ready_for_present := none } else s
  let count := s1.draw_stats.1 + 1
  let last_time := s1.draw_stats.2
  if 1 < now - last_time then
    ({ s1 with draw_stats := (0, now) }, some ((now - last_time) / count))
  else
    ({ s1 with draw_stats := (count, last_time) }, none)

/-- Embeds Scheduler.set_update_mode (lines 77-94). An invalid mode name
raises ValueError before any assignment; a min_fps value is clamped with
max(0.0, ...); a max_fps value below 1 raises ValueError (after _mode and
_min_fps were already assigned, as in the source). The second component is
the raised exception, if any. -/
def set_update_mode (s : SchedulerState) (update_mode : String)
    (min_fps max_fps : Option ℚ) : SchedulerState × Option String :=
  if update_mode ∉ updateModeMembers then
    (s, some "ValueError: invalid update_mode")
  else
    let s1 := { s with mode := update_mode }
    let s2 := match min_fps with
      | none => s1
      | some v => { s1 with min_fps := max 0 v }
    match max_fps with
    | none => (s2, none)
    | some v =>
        if v < 1 then (s2, some "ValueError: max_fps should be >= 1")
        else ({ s2 with max_fps := max 1 v }, none)

/-- Embeds Scheduler.__init__ (lines 42-60): set_enabled(True), then
set_update_mode (which may raise, aborting construction), then
_draw_requested = True, _ready_for_present = None, and the fps stats are
seeded with (0, now). Python attributes that are not yet assigned are given
placeholder values in s0; every field is overwritten before it is read on
the success path. -/
def scheduler_init (update_mode : String) (min_fps max_fps : ℚ) (now : ℚ) :
    SchedulerState × Option String :=
  let s0 : SchedulerState := ⟨false, "", 0, 0, false, none, (0, 0)⟩
  let s1 := set_enabled s0 true
  match set_update_mode s1 update_mode (some min_fps) (some max_fps) with
  | (s2, some e) => (s2, some e)
  | (s2, none) =>
      ({ s2 with draw_requested := true, ready_for_present := none,
                 draw_stats := (0, now) }, none)

/-- Embeds the delay computation at the top of Scheduler.__scheduler_task
(lines 116-123). -/
def tickDelay (s : SchedulerState) : ℚ :=
  if s.enabled = false then 1/10
  else if s.mode = "fastest" ∨ s.max_fps ≤ 0 then 0
  else
    let d := 1 / s.max_fps
    if d < 0 then 0 else d

/-- Embeds the do_draw decision of a tick (lines 136-161). now is the
time.perf_counter() reading of the tick; last_draw_time is the local variable
of the task (initialized to 0 and never reassigned in the source). The error
value embeds the RuntimeError raised for an unexpected mode string. -/
def tickDoDraw (s : SchedulerState) (now last_draw_time : ℚ) : Except String Bool :=
  if s.enabled = false then .ok false
  else if s.mode = "fastest" then .ok true
  else if s.mode = "continuous" then .ok true
  else if s.mode = "ondemand" then
    if s.draw_requested then .ok true
    else if 0 < s.min_fps ∧ 1 / s.min_fps < now - last_draw_time then .ok true
    else .ok false
  else if s.mode = "manual" then .ok false
  else .error "RuntimeError: unexpected scheduling mode"

/-- Suspension values the scheduler task can yield to its executor. Note there
is no event-wait constructor: under the built-in executor the await of
Event.wait never suspends (see event_wait_suspension below), and the sleeps
are the only yields that reach the executor. -/
inductive Suspension
  | sleepFor (d : ℚ)
deriving DecidableEq

/-- Resumption points of the Scheduler.__scheduler_task coroutine, carrying
the local variables last_draw_time and last_tick_time. atLoopTop is the point
reached after the startup sleep (line 113) resumes: the top of the while loop,
which computes delay and sleep_time and then suspends in the pacing sleep
(line 130). atTickBody is the point reached when that pacing sleep resumes:
the tick body starting at line 134. -/
inductive SchedCont
  | atLoopTop (last_draw_time last_tick_time : ℚ)
  | atTickBody (last_draw_time last_tick_time : ℚ)
deriving DecidableEq

/-- Environment for one resumption of the scheduler task: now is the
time.perf_counter() reading at the resumption point (line 134 for a tick,
line 126 for a loop-top resumption); canvasAlive is whether get_canvas()
returns a canvas (weakref alive and not closed); eventsRequestDraw is whether
an event handler run by canvas._process_events() calls request_draw();
syncPresent is whether canvas._rc_request_draw() leads synchronously to the
draw, i.e. on_about_to_draw and on_draw_done run before it returns (as for
backends that paint immediately); now2 is the time.perf_counter() reading at
the next loop head when the tick body flows into it within the same
resumption. -/
structure TickEnv where
  now : ℚ
  canvasAlive : Bool
  eventsRequestDraw : Bool
  syncPresent : Bool
  now2 : ℚ
deriving DecidableEq

/-- Embeds the await of Event.wait from src/rendercanvas/utils/asyncadapter.py
(lines 37-44) under Python coroutine semantics. Event.wait is an async
function whose body returns (None when _is_set, the event itself otherwise)
without yielding; awaiting a coroutine runs its body and the await expression
completes with the returned value, which is not awaited again. So the awaiting
task never suspends, whatever _is_set is, and no wait_method dict reaches
Task.step. (The source comment says that returning self triggers __await__,
but returned values are not re-awaited; moreover Event.__await__ returns a
dict rather than a generator, so even a direct await of the event would raise
a TypeError instead of yielding the dict.) -/
def event_wait_suspension (_is_set : Bool) : Option Suspension := none

/-- Embeds the initial step of Scheduler.__scheduler_task (lines 106-113):
the locals are initialized to 0 and the task suspends in the startup sleep
precise_sleep(0.02), resuming at the top of the while loop. -/
def schedulerTaskStart : Suspension × SchedCont :=
  (.sleepFor (1/50), .atLoopTop 0 0)

/-- Embeds one resumption of Scheduler.__scheduler_task (lines 106-215),
running from the resumption point to the next suspension. Returns the new
object state and the next suspension with its continuation, or none when the
coroutine returns (the break at line 165 when the canvas is gone).

From atLoopTop: compute delay (lines 116-123) and sleep_time (line 126), then
suspend in precise_sleep(max(0, sleep_time)) (line 130).

From atTickBody: set last_tick_time := now (line 134); evaluate do_draw
(lines 136-161; a RuntimeError from the final else would end the task, the
executor catching it at the step boundary); break if the canvas is gone
(line 164); run canvas._process_events() (line 174), modelled here as
possibly setting the draw-request flag via request_draw; if do_draw, create a
fresh unset Event in _ready_for_present, call canvas._rc_request_draw()
(which, when syncPresent, runs on_about_to_draw and on_draw_done
synchronously), then reach the await of _ready_for_present.wait() (line 208),
which never suspends (see event_wait_suspension); in all cases execution
flows into the next loop head, whose pacing sleep is the next suspension.
Note that last_draw_time is never reassigned anywhere, exactly as in the
source. -/
def schedulerResume (s : SchedulerState) (c : SchedCont) (env : TickEnv) :
    SchedulerState × Option (Suspension × SchedCont) :=
  match c with
  | .atLoopTop ldt ltt =>
      (s, some (.sleepFor (max 0 (tickDelay s - (env.now - ltt))), .atTickBody ldt ltt))
  | .atTickBody ldt _ =>
      let ltt := env.now
      match tickDoDraw s env.now ldt with
      | .error _ => (s, none)
      | .ok dd =>
          if env.canvasAlive = false then (s, none)
          else
            let s1 := if env.eventsRequestDraw then request_draw s else s
            if dd then
              let s2 := { s1 with ready_for_present := some false }
              let s3 := if env.syncPresent
                then (on_draw_done (on_about_to_draw s2) env.now2).1
                else s2
              (s3, some (.sleepFor (max 0 (tickDelay s3 - (env.now2 - ltt))),
                         .atTickBody ldt ltt))
            else
              (s1, some (.sleepFor (max 0 (tickDelay s1 - (env.now2 - ltt))),
                         .atTickBody ldt ltt))

/-- State of a BaseLoop object (src/rendercanvas/_loop.py): the __state enum
value, the __is_initialized flag and the __should_stop counter. -/
structure LoopModel where
  state : LoopState
  is_initialized : Bool
  should_stop : ℕ
deriving DecidableEq

/-- Embeds BaseLoop._mark_as_interactive (lines 103-108), returning the new
model and the list of states assigned to __state (the transition trace). -/
def markInteractiveT (m : LoopModel) : LoopModel × List LoopState :=
  if m.state = .ready ∨ m.state = .running then
    ({ m with state := .interactive }, [.interactive])
  else (m, [])

/-- Embeds BaseLoop._ensure_initialized (lines 127-145). The rcMark parameter
is whether the _rc_init hook of the backend calls _mark_as_interactive (its
docstring allows it to). The scheduled loop-task is modelled separately by
loopTaskStartT. Returns the model and the trace of __state assignments. -/
def ensureInitializedT (rcMark : Bool) (m : LoopModel) : LoopModel × List LoopState :=
  if m.is_initialized then (m, [])
  else
    let (m1, t1) := if m.state = .off then ({ m with state := LoopState.ready }, [LoopState.ready]) else (m, [])
    let m2 := { m1 with is_initialized := true }
    let (m3, t3) := if rcMark then markInteractiveT m2 else (m2, [])
    (m3, t1 ++ t3)

/-- Embeds BaseLoop.__start (lines 371-381), run when the loop-task begins
executing: off and ready move to active, running and interactive are left. -/
def loopTaskStartT (m : LoopModel) : LoopModel × List LoopState :=
  if m.state = .off ∨ m.state = .ready then
    ({ m with state := .active }, [.active])
  else (m, [])

/-- Embeds the entry part of BaseLoop.run (lines 270-303): the state guard
(interactive returns silently, running raises RuntimeError), then
_ensure_initialized, then __state := running. The first component is the
exception raised, if any; then the model and the __state trace. The part of
run() after _rc_run returns is runExitT. -/
def runEnterT (rcMark : Bool) (m : LoopModel) :
    Option String × LoopModel × List LoopState :=
  if m.state = .off ∨ m.state = .ready ∨ m.state = .active then
    let (m1, t1) := ensureInitializedT rcMark m
    (none, { m1 with state := .running }, t1 ++ [.running])
  else if m.state = .interactive then (none, m, [])
  else (some "RuntimeError: loop is already running.", m, [])

/-- Embeds the finally block of BaseLoop.run (lines 306-311): if __state is
still running it is demoted to active (the restoring of signal handlers has
no state effect). -/
def runExitT (m : LoopModel) : LoopModel × List LoopState :=
  if m.state = .running then ({ m with state := .active }, [.active]) else (m, [])

/-- Embeds the entry part of BaseLoop.run_async (lines 313-330): only off and
ready may enter (else RuntimeError), then _ensure_initialized, then
__state := active. -/
def runAsyncEnterT (rcMark : Bool) (m : LoopModel) :
    Option String × LoopModel × List LoopState :=
  if m.state = .off ∨ m.state = .ready then
    let (m1, t1) := ensureInitializedT rcMark m
    (none, { m1 with state := .active }, t1 ++ [.active])
  else (some "RuntimeError: run_async can only be awaited once.", m, [])

/-- Embeds the finally block of BaseLoop.run_async (lines 334-335):
__state := off unconditionally. -/
def runAsyncExitT (m : LoopModel) : LoopModel × List LoopState :=
  ({ m with state := .off }, [.off])

/-- State of one canvas as far as BaseLoop.stop and the canvas-group sweep
observe it: closed embeds _rc_get_closed(); closedByLoop embeds the
_rc_closed_by_loop attribute (absent meaning false); cooperative is whether a
close() call makes _rc_get_closed() become true (an uncooperative backend may
defer actually closing); closeCalls counts the close() calls received. -/
structure Canvas where
  closed : Bool
  closedByLoop : Bool
  cooperative : Bool
  closeCalls : ℕ
deriving DecidableEq

/-- Embeds one canvas.close() call: the close body runs (counted) and the
canvas reports closed afterwards when the backend is cooperative. -/
def canvas_close (c : Canvas) : Canvas :=
  { c with closed := c.closed || c.cooperative, closeCalls := c.closeCalls + 1 }

/-- Embeds BaseCanvasGroup.get_canvases(close_closed=True)
(src/rendercanvas/base.py lines 79-87) as used by the loop: canvases that
report closed get close() called on them and are discarded from the weak set;
the remaining (open) canvases are returned. First component: the returned
live list; second: the discarded canvases (after their close() call). -/
def sweepGroup (cs : List Canvas) : List Canvas × List Canvas :=
  (cs.filter (fun c => !c.closed), (cs.filter (fun c => c.closed)).map canvas_close)

/-- Embeds the close loop of BaseLoop.stop (lines 356-365): every canvas in
the returned list that is not yet marked _rc_closed_by_loop is marked and
close()d; already-marked canvases are skipped. -/
def stopCloseLoop (cs : List Canvas) : List Canvas :=
  cs.map (fun c => if c.closedByLoop then c else canvas_close { c with closedByLoop := true })

/-- Result of one BaseLoop.stop call: the loop model, the open canvases after
the close loop, the canvases the sweep finalized, whether __stop ran (with
its effects: tasks cancelled, _rc_stop called), and the __state trace. -/
structure StopResult where
  model : LoopModel
  canvases : List Canvas
  sweptOut : List Canvas
  toreDown : Bool
  cancelledTasks : Bool
  rcStopCalled : Bool
  trace : List LoopState
deriving DecidableEq

/-- Embeds BaseLoop.stop (lines 337-369) together with BaseLoop.__stop
(lines 383-412). An off loop returns immediately. Otherwise __should_stop is
raised by 2 when force else 1; the canvas groups are swept with
close_closed=True; the returned open canvases are closed at most once each
(guarded by _rc_closed_by_loop); and when the returned list was empty or the
counter is at least 2, __stop runs: state := off, counter := 0, outstanding
tasks cancelled, _rc_stop called. -/
def stopT (force : Bool) (m : LoopModel) (cs : List Canvas) : StopResult :=
  if m.state = .off then ⟨m, cs, [], false, false, false, []⟩
  else
    let m1 := { m with should_stop := m.should_stop + (if force then 2 else 1) }
    let (live, swept) := sweepGroup cs
    let live2 := stopCloseLoop live
    if live.length = 0 ∨ 2 ≤ m1.should_stop then
      ⟨{ m1 with state := .off, should_stop := 0 }, live2, swept, true, true, true, [.off]⟩
    else
      ⟨m1, live2, swept, false, false, false, []⟩

/-- Description of the task a scheduling call hands to _rc_add_task: its
debug name and the sleep the wrapper coroutine performs before invoking the
callback (none for no timed wait at all). -/
structure TaskSpec where
  name : String
  presleep : Option ℚ
deriving DecidableEq

/-- Embeds BaseLoop.call_soon (lines 215-234). callable and isAsync describe
the callback argument (callable(callback) and iscoroutinefunction(callback)).
On success the wrapper task invokes the callback directly, with no sleep. -/
def call_soon (callable isAsync : Bool) : Except String TaskSpec :=
  if callable = false then .error "TypeError: call_soon expects a callable."
  else if isAsync then .error "TypeError: call_soon expects a normal callable, not an async one."
  else .ok ⟨"call_soon", none⟩

/-- Embeds BaseLoop.call_later (lines 252-268): a delay of at most 0 delegates
to call_soon before any other check; otherwise the wrapper task sleeps for
delay and then invokes the callback. -/
def call_later (delay : ℚ) (callable isAsync : Bool) : Except String TaskSpec :=
  if delay ≤ 0 then call_soon callable isAsync
  else if callable = false then .error "TypeError: call_later expects a callable."
  else if isAsync then .error "TypeError: call_later expects a normal callable, not an async one."
  else .ok ⟨"call_later", some delay⟩

/-- Value yielded by coro.send(None) as Task.step of
src/rendercanvas/utils/asyncadapter.py inspects it (lines 166-175): a dict
with wait_method sleep and a delay; a dict with wait_method event and an
event (identified here by a number); a dict whose wait_method is some other
truthy string; or anything else (a non-dict, or a dict whose wait_method is
missing or falsy). -/
inductive PyYield
  | sleepDict (delay : ℚ)
  | eventDict (ev : ℕ)
  | unknownWaitMethod (wm : String)
  | noWaitMethod
deriving DecidableEq

/-- Outcome of driving the continuation one step, i.e. of coro.send(None) at
line 149 of Task.step: it yields a value, finishes (StopIteration), raises
CancelledError, or raises some other exception. -/
inductive CoroOutcome
  | yields (v : PyYield)
  | stopIteration
  | raisesCancelled
  | raisesOther
deriving DecidableEq

/-- State of an asyncadapter Task as Task.step reads and writes it: closed
embeds coro being None (the task was _close()d), cancelled embeds the
cancelled flag. -/
structure TaskState where
  closed : Bool
  cancelled : Bool
deriving DecidableEq

/-- Side effects Task.step performs: logging an error, scheduling its own
step after a delay via call_step_later, registering on an event via
_add_task, and running the done-callbacks from _close. -/
inductive TaskAction
  | logError
  | callStepLater (delay : ℚ)
  | addToEvent (ev : ℕ)
  | runDoneCallbacks
deriving DecidableEq

/-- Whether the yielded value is one of the two recognized suspensions. -/
def recognizedYield : PyYield → Bool
  | .sleepDict _ => true
  | .eventDict _ => true
  | .unknownWaitMethod _ => false
  | .noWaitMethod => false

/-- Embeds Task.step of src/rendercanvas/utils/asyncadapter.py
(lines 134-183). A closed task is a no-op. A cancelled task is thrown
CancelledError and closed, whatever the continuation does with it (a caught
CancelledError falls through to coro.close(); any escaping exception is
caught at the step boundary, the non-CancelledError ones logged). An
uncancelled task drives the continuation: on StopIteration or CancelledError
it closes; on another exception it logs and closes; on a yielded value it
dispatches on wait_method: sleep schedules the next step after the delay,
event registers the task on the event, and anything else logs an error,
marks the task cancelled and schedules an immediate step (the protocol-error
path, which raises nothing to the caller). Returns the new task state and
the list of effects in order. -/
def task_step (t : TaskState) (outcome : CoroOutcome) : TaskState × List TaskAction :=
  if t.closed then (t, [])
  else if t.cancelled then ({ t with closed := true }, [.runDoneCallbacks])
  else
    match outcome with
    | .stopIteration => ({ t with closed := true }, [.runDoneCallbacks])
    | .raisesCancelled => ({ t with closed := true }, [.runDoneCallbacks])
    | .raisesOther => ({ t with closed := true }, [.logError, .runDoneCallbacks])
    | .yields v =>
        match v with
        | .sleepDict d => (t, [.callStepLater d])
        | .eventDict e => (t, [.addToEvent e])
        | .unknownWaitMethod _ => ({ t with cancelled := true }, [.logError, .callStepLater 0])
        | .noWaitMethod => ({ t with cancelled := true }, [.logError, .callStepLater 0])

/-- Embeds stepping the i-th task of an executor that owns a list of tasks:
only that task is read or written, as in the source, where Task.step touches
only self. -/
def step_ith (tasks : List TaskState) (i : ℕ) (outcome : CoroOutcome) : List TaskState :=
  match tasks.get? i with
  | none => tasks
  | some t => tasks.set i (task_step t outcome).1

/-- State of a BaseCanvasGroup (src/rendercanvas/base.py lines 46-89): the
_canvases WeakSet, embedded as a list of keyed entries. The weakness of the
set (source line 50: a weakref.WeakSet, the group stores canvases nowhere
else) is embedded through gc_collect below: a canvas that becomes
unreachable simply disappears from the set, per the documented WeakSet
semantics. -/
structure CanvasGroupM where
  canvases : List (ℕ × Canvas)
deriving DecidableEq

/-- Embeds BaseCanvasGroup._register_canvas adding the canvas to the weak
set (line 55; the loop-registration side is not needed here). -/
def group_register (g : CanvasGroupM) (id : ℕ) (c : Canvas) : CanvasGroupM :=
  ⟨(id, c) :: g.canvases⟩

/-- Embeds the canvas with the given key becoming unreachable and collected:
by WeakSet semantics it vanishes from _canvases without any group call. -/
def gc_collect (g : CanvasGroupM) (id : ℕ) : CanvasGroupM :=
  ⟨g.canvases.filter (fun e => e.1 ≠ id)⟩

/-- Embeds BaseCanvasGroup.get_canvases (lines 79-89). With close_closed,
the canvases reporting closed get close() called on them and are discarded
from the weak set, and the remaining set is returned; without it, the open
canvases are returned and nothing is mutated. Returns the keys of the
returned canvases and the group afterwards. -/
def group_get_canvases (g : CanvasGroupM) (close_closed : Bool) :
    List ℕ × CanvasGroupM :=
  if close_closed then
    let remaining := g.canvases.filter (fun e => !e.2.closed)
    (remaining.map (fun e => e.1), ⟨remaining⟩)
  else
    ((g.canvases.filter (fun e => !e.2.closed)).map (fun e => e.1), g)

/-- The transition chain that the claim states: off to ready to active to
running or interactive, and from running or interactive back to off. -/
def chainEdges : List (LoopState × LoopState) :=
  [(.off, .ready), (.ready, .active), (.active, .running), (.active, .interactive),
   (.running, .off), (.interactive, .off)]

/-- The state transitions the loop operations actually perform (proved in
loop_transitions_in_code_edges): the chain, plus the edges the code adds:
off or ready jump straight to active or running when intermediate stages
coincide in one call; _mark_as_interactive promotes ready and also running
to interactive; run() demotes running back to active when _rc_run returns;
run() reaches running even when _rc_init marked the loop interactive during
its lazy initialization; run_async demotes such an interactive state to
active; and teardown resets every state to off. -/
def codeEdges : List (LoopState × LoopState) :=
  chainEdges ++
  [(.off, .active), (.off, .running), (.ready, .running), (.ready, .interactive),
   (.ready, .off), (.active, .off), (.running, .active), (.running, .interactive),
   (.interactive, .running), (.interactive, .active)]

/-- Consecutive pairs of the trace of __state assignments, starting from the
state before the operation. -/
def traceEdges : LoopState → List LoopState → List (LoopState × LoopState)
  | _, [] => []
  | s0, t :: ts => (s0, t) :: traceEdges t ts

/-- Every assignment of the trace is a self-loop or one of the given edges. -/
def EdgesOK (edges : List (LoopState × LoopState)) (s0 : LoopState)
    (tr : List LoopState) : Prop :=
  ∀ e ∈ traceEdges s0 tr, e.1 = e.2 ∨ e ∈ edges

instance (edges : List (LoopState × LoopState)) (s0 : LoopState) (tr : List LoopState) :
    Decidable (EdgesOK edges s0 tr) := by
  unfold EdgesOK; infer_instance

/-- Facts about a successful set_update_mode call: the mode is stored, and
the enabled and draw_requested fields are untouched. -/
theorem set_update_mode_ok_fields (s s2 : SchedulerState) (um : String)
    (mf xf : Option ℚ) (h : set_update_mode s um mf xf = (s2, none)) :
    s2.mode = um ∧ s2.enabled = s.enabled ∧ s2.draw_requested = s.draw_requested := by
  unfold set_update_mode at h
  split at h
  · simp at h
  · rcases mf with _ | v <;> rcases xf with _ | w <;> dsimp only at h
    · injection h with h1 _; subst h1; simp
    · split at h
      · simp at h
      · injection h with h1 _; subst h1; simp
    · injection h with h1 _; subst h1; simp
    · split at h
      · simp at h
      · injection h with h1 _; subst h1; simp

/-- C8: a freshly constructed Scheduler (whose constructor did not raise)
has its draw-requested flag set to True, set_enabled(True) at any time sets
the flag again, and in ondemand mode the tick decision on such a state
requests a draw whatever the clock says, even if request_draw was never
called. -/
theorem scheduler_starts_with_draw_requested
    (um : String) (mf xf now : ℚ) (s : SchedulerState)
    (h : scheduler_init um mf xf now = (s, none)) :
    s.draw_requested = true
    ∧ (∀ s2 : SchedulerState, (set_enabled s2 true).draw_requested = true)
    ∧ (um = "ondemand" → ∀ t ldt : ℚ,
        tickDoDraw s t ldt = .ok true
        ∧ tickDoDraw (set_enabled s true) t ldt = .ok true) := by
  unfold scheduler_init at h
  dsimp only at h
  split at h
  next s2 e heq => simp at h
  next s2 heq =>
    injection h with h1 _
    obtain ⟨hmode, hen, _⟩ := set_update_mode_ok_fields _ _ _ _ _ heq
    subst h1
    refine ⟨rfl, fun s2 => by simp [set_enabled], fun hum t ldt => ?_⟩
    subst hum
    have hen2 : s2.enabled = true := by rw [hen]; simp [set_enabled]
    constructor
    · simp [tickDoDraw, hmode, hen2]
    · simp [tickDoDraw, set_enabled, hmode]

/-- Witness for scheduler_starts_with_draw_requested at concrete input. -/
theorem scheduler_starts_with_draw_requested_witness :
    scheduler_init "ondemand" 0 30 0
      = (⟨true, "ondemand", 0, 30, true, none, (0, 0)⟩, none)
    ∧ (⟨true, "ondemand", 0, 30, true, none, (0, 0)⟩ : SchedulerState).draw_requested = true := by
  refine ⟨by decide, ?_⟩
  exact (scheduler_starts_with_draw_requested "ondemand" 0 30 0 _ (by decide)).1

/-- C6 counterexample: calling set_update_mode with min_fps = -5 (and a valid
mode and max_fps) raises no ValueError at all, contradicting the claim that
min_fps < 0 raises one to the immediate caller; the value is silently clamped
to 0. -/
theorem set_update_mode_negative_min_fps_raises_nothing :
    set_update_mode ⟨true, "ondemand", 0, 30, true, none, (0, 0)⟩
        "ondemand" (some (-5)) (some 30)
      = (⟨true, "ondemand", 0, 30, true, none, (0, 0)⟩, none)
    ∧ ((-5 : ℚ) < 0) := by decide

/-- C6 amended: for every call to Scheduler.set_update_mode (including via
the constructor), an update_mode outside the UpdateMode members raises a
ValueError to the immediate caller, as does a max_fps below 1; a min_fps
below 0 does not raise but is clamped to 0 (min_fps is always stored as
max(0, min_fps)). -/
theorem set_update_mode_validation (s : SchedulerState) (um : String) (mf xf : ℚ) :
    (um ∉ updateModeMembers →
      (set_update_mode s um (some mf) (some xf)).2.isSome = true
      ∧ ∀ now : ℚ, (scheduler_init um mf xf now).2.isSome = true)
    ∧ (um ∈ updateModeMembers → xf < 1 →
      (set_update_mode s um (some mf) (some xf)).2.isSome = true
      ∧ ∀ now : ℚ, (scheduler_init um mf xf now).2.isSome = true)
    ∧ (um ∈ updateModeMembers → 1 ≤ xf →
      (set_update_mode s um (some mf) (some xf)).2 = none
      ∧ (set_update_mode s um (some mf) (some xf)).1.min_fps = max 0 mf
      ∧ (mf < 0 → (set_update_mode s um (some mf) (some xf)).1.min_fps = 0)) := by
  refine ⟨fun hmem => ⟨?_, fun now => ?_⟩, fun hmem hx => ⟨?_, fun now => ?_⟩,
    fun hmem hx => ?_⟩
  · simp [set_update_mode, hmem]
  · simp [scheduler_init, set_update_mode, hmem]
  · simp [set_update_mode, hmem, hx]
  · simp [scheduler_init, set_update_mode, hmem, hx]
  · have hx2 : ¬ xf < 1 := not_lt.mpr hx
    refine ⟨by simp [set_update_mode, hmem, hx2], by simp [set_update_mode, hmem, hx2], ?_⟩
    intro hmf
    simp [set_update_mode, hmem, hx2, max_eq_left (le_of_lt hmf)]

/-- Witness for set_update_mode_validation at concrete input. -/
theorem set_update_mode_validation_witness :
    (set_update_mode ⟨true, "ondemand", 0, 30, true, none, (0, 0)⟩
        "nonsense" (some 0) (some 30)).2.isSome = true
    ∧ (set_update_mode ⟨true, "ondemand", 0, 30, true, none, (0, 0)⟩
        "ondemand" (some 0) (some 0)).2.isSome = true
    ∧ (set_update_mode ⟨true, "ondemand", 0, 30, true, none, (0, 0)⟩
        "ondemand" (some (-2)) (some 30)).1.min_fps = 0 := by
  have h := set_update_mode_validation ⟨true, "ondemand", 0, 30, true, none, (0, 0)⟩
  refine ⟨(h "nonsense" 0 30).1 (by decide) |>.1,
    ((h "ondemand" 0 0).2.1 (by decide) (by norm_num)).1,
    ((h "ondemand" (-2) 30).2.2 (by decide) (by norm_num)).2.2 (by norm_num)⟩

/-- C1 evaluated at the failing input. A scheduler in ondemand mode with
min_fps = 1 and max_fps = 30 is constructed at time 1 (flag set, as always on
construction). Its tick at time 19/10 draws (the flag was set) and the draw
completes synchronously, so on_about_to_draw clears the flag; per the claim
the time of this draw (19/10) is the new reference for the min_fps check. At
the next tick, at time 2, only 1/10 second has passed since that draw --
less than 1/min_fps = 1 -- and the flag is clear, so the claim says the tick
must not draw; but the code decides to draw, because the local variable
last_draw_time that the check compares against is initialized to 0 and never
reassigned after a draw, and 2 - 0 > 1. The ondemand decision is therefore
not the function of the request flag and of the time since the last draw
that the claim states. -/
theorem ondemand_draws_despite_recent_draw :
    (scheduler_init "ondemand" 1 30 1).1
      = ⟨true, "ondemand", 1, 30, true, none, (0, 1)⟩
    ∧ schedulerResume ⟨true, "ondemand", 1, 30, true, none, (0, 1)⟩
        (.atTickBody 0 0) ⟨19/10, true, false, true, 19/10⟩
      = (⟨true, "ondemand", 1, 30, false, none, (1, 1)⟩,
         some (.sleepFor (1/30), .atTickBody 0 (19/10)))
    ∧ tickDoDraw ⟨true, "ondemand", 1, 30, false, none, (1, 1)⟩ 2 0 = .ok true
    ∧ (⟨true, "ondemand", 1, 30, false, none, (1, 1)⟩ : SchedulerState).draw_requested = false
    ∧ ((2 : ℚ) - 19/10 ≤ 1 / (1 : ℚ)) := by
  refine ⟨?_, ?_, ?_, rfl, by norm_num⟩
  · norm_num [scheduler_init, set_enabled, set_update_mode, updateModeMembers]
  · norm_num [schedulerResume, tickDoDraw, tickDelay, request_draw, on_about_to_draw,
      on_draw_done, show ("ondemand" : String) ≠ "fastest" by decide]
  · norm_num [tickDoDraw]

/-- C2 evaluated at the failing input, under the built-in asyncadapter
executor (the only executor whose semantics are part of the specified core).
A tick that decides do_draw stores a fresh unset completion event in
_ready_for_present and requests the draw; the draw does not complete
synchronously. The claim says the task now suspends on that event and no
further tick starts until on_draw_done or on_cancel_draw sets it. But the
resumption below returns a sleep suspension that schedules the next tick
directly: the await of Event.wait completes immediately (see
event_wait_suspension), so the scheduler loops on while
_ready_for_present = some false, i.e. while the draw is still unpresented.
The last two conjuncts record that on_draw_done and on_cancel_draw are the
operations that set and drop the event, as the claim says; the defect is
that nothing ever waits for it. -/
theorem draw_tick_does_not_suspend_on_present :
    schedulerResume ⟨true, "continuous", 0, 30, false, none, (0, 0)⟩
        (.atTickBody 0 0) ⟨1, true, false, false, 1⟩
      = (⟨true, "continuous", 0, 30, false, some false, (0, 0)⟩,
         some (.sleepFor (1/30), .atTickBody 0 1))
    ∧ (∀ b : Bool, event_wait_suspension b = none)
    ∧ on_draw_done ⟨true, "continuous", 0, 30, false, some false, (0, 0)⟩ 1
        = (⟨true, "continuous", 0, 30, false, none, (1, 0)⟩, none)
    ∧ on_cancel_draw ⟨true, "continuous", 0, 30, false, some false, (0, 0)⟩
      = ⟨true, "continuous", 0, 30, false, none, (0, 0)⟩ := by
  refine ⟨?_, fun b => rfl, ?_, ?_⟩
  · norm_num [schedulerResume, tickDoDraw, tickDelay, request_draw,
      show ("continuous" : String) ≠ "fastest" by decide]
  · norm_num [on_draw_done]
  · norm_num [on_cancel_draw]

/-- C9: for a callable, non-async callback and any delay at most 0,
call_later is the very same call as call_soon: the scheduled task carries the
call_soon name and performs no timed wait before invoking the callback. -/
theorem call_later_nonpositive_is_call_soon (delay : ℚ) (c a : Bool)
    (hd : delay ≤ 0) (hc : c = true) (ha : a = false) :
    call_later delay c a = call_soon c a
    ∧ call_later delay c a = .ok ⟨"call_soon", none⟩ := by
  subst hc ha
  exact ⟨by simp [call_later, hd], by simp [call_later, call_soon, hd]⟩

/-- Witness for call_later_nonpositive_is_call_soon at delay -1. -/
theorem call_later_nonpositive_is_call_soon_witness :
    call_later (-1) true false = call_soon true false
    ∧ call_later (-1) true false = .ok ⟨"call_soon", none⟩ :=
  call_later_nonpositive_is_call_soon (-1) true false (by norm_num) rfl rfl

/-- C7: the canvas group holds no strong reference to a canvas: once a
registered canvas becomes unreachable and is collected (which, the group
storing it only in a WeakSet, removes it from _canvases), a get_canvases
call, with or without close_closed, returns a set that no longer contains
it; and get_canvases never reintroduces a canvas, so the same holds for
every subsequent call on the swept group. The sweep itself is a total
function: it raises nothing. -/
theorem collected_canvas_not_returned (g : CanvasGroupM) (id : ℕ)
    (c : Canvas) (b : Bool) :
    id ∉ (group_get_canvases (gc_collect (group_register g id c) id) b).1
    ∧ (∀ g2 : CanvasGroupM, id ∉ g2.canvases.map (fun e => e.1) →
        id ∉ (group_get_canvases g2 b).1
        ∧ id ∉ (group_get_canvases g2 b).2.canvases.map (fun e => e.1)) := by
  constructor
  · cases b <;>
      simp [group_get_canvases, gc_collect, group_register, List.mem_filter]
  · intro g2 hg2
    have hfilter : id ∉ (g2.canvases.filter (fun e => !e.2.closed)).map (fun e => e.1) := by
      intro hmem
      rcases List.mem_map.mp hmem with ⟨x, hx, he⟩
      exact hg2 (List.mem_map.mpr ⟨x, List.mem_of_mem_filter hx, he⟩)
    cases b
    · exact ⟨by simpa [group_get_canvases] using hfilter,
        by simpa [group_get_canvases] using hg2⟩
    · exact ⟨by simpa [group_get_canvases] using hfilter,
        by simpa [group_get_canvases] using hfilter⟩

/-- Witness for collected_canvas_not_returned at a concrete group. -/
theorem collected_canvas_not_returned_witness :
    (7 : ℕ) ∉ (group_get_canvases (gc_collect
      (group_register ⟨[]⟩ 7 ⟨false, false, true, 0⟩) 7) true).1 :=
  (collected_canvas_not_returned ⟨[]⟩ 7 ⟨false, false, true, 0⟩ true).1

/-- C4: when a live, uncancelled task yields a suspension value that is not
a dict carrying a recognized wait_method (sleep or event), Task.step logs an
error, marks the task cancelled and schedules its immediate resumption,
leaving the task open; the next step then closes it (running the done
callbacks), whatever the continuation does with the thrown CancelledError.
step performs no raise on this path, so nothing propagates to its caller
(task_step is total), and stepping one task of an executor leaves every
other task untouched. -/
theorem unrecognized_yield_cancels_task (t : TaskState) (v : PyYield)
    (hopen : t.closed = false) (hnc : t.cancelled = false)
    (hv : recognizedYield v = false) :
    task_step t (.yields v) = ({ t with cancelled := true }, [.logError, .callStepLater 0])
    ∧ (∀ o2 : CoroOutcome,
        (task_step (task_step t (.yields v)).1 o2).1.closed = true
        ∧ (task_step (task_step t (.yields v)).1 o2).2 = [.runDoneCallbacks])
    ∧ (∀ (tasks : List TaskState) (i j : ℕ), i ≠ j →
        (step_ith tasks i (.yields v)).get? j = tasks.get? j) := by
  have h1 : task_step t (.yields v)
      = ({ t with cancelled := true }, [.logError, .callStepLater 0]) := by
    cases v <;> simp_all [task_step, recognizedYield]
  refine ⟨h1, fun o2 => ?_, fun tasks i j hij => ?_⟩
  · rw [h1]
    exact ⟨by simp [task_step, hopen], by simp [task_step, hopen]⟩
  · unfold step_ith
    cases hgi : tasks.get? i with
    | none => rfl
    | some ti => simp [List.getElem?_set_ne hij]

/-- Witness for unrecognized_yield_cancels_task at a concrete task. -/
theorem unrecognized_yield_cancels_task_witness :
    task_step ⟨false, false⟩ (.yields .noWaitMethod)
      = (⟨false, true⟩, [.logError, .callStepLater 0]) :=
  (unrecognized_yield_cancels_task ⟨false, false⟩ .noWaitMethod rfl rfl rfl).1

/-- C10: run() on an interactive loop returns silently, raising nothing and
changing nothing; run() on a running loop raises RuntimeError and changes
nothing. -/
theorem run_on_interactive_and_on_running (m : LoopModel) (rcMark : Bool) :
    (m.state = .interactive → runEnterT rcMark m = (none, m, []))
    ∧ (m.state = .running →
        runEnterT rcMark m = (some "RuntimeError: loop is already running.", m, [])) := by
  constructor <;> intro h <;> simp [runEnterT, h]

/-- Witness for run_on_interactive_and_on_running at concrete models. -/
theorem run_on_interactive_and_on_running_witness :
    runEnterT false ⟨.interactive, true, 0⟩ = (none, ⟨.interactive, true, 0⟩, [])
    ∧ runEnterT false ⟨.running, true, 0⟩
      = (some "RuntimeError: loop is already running.", ⟨.running, true, 0⟩, []) :=
  ⟨(run_on_interactive_and_on_running ⟨.interactive, true, 0⟩ false).1 rfl,
   (run_on_interactive_and_on_running ⟨.running, true, 0⟩ false).2 rfl⟩

/-- C3 counterexample: from a fresh loop (off, uninitialized), registering
the first canvas (ensure-initialized) reaches ready, run() reaches running,
and the return of _rc_run demotes running back to active: the operation
run() performs the transition running to active, which is not an edge of
the claimed chain. -/
theorem run_return_leaves_chain :
    ensureInitializedT false ⟨.off, false, 0⟩ = (⟨.ready, true, 0⟩, [.ready])
    ∧ runEnterT false ⟨.ready, true, 0⟩ = (none, ⟨.running, true, 0⟩, [.running])
    ∧ runExitT ⟨.running, true, 0⟩ = (⟨.active, true, 0⟩, [.active])
    ∧ (LoopState.running, LoopState.active) ∉ chainEdges
    ∧ LoopState.running ≠ LoopState.active := by decide

/-- C3 amended: every operation of the loop lifecycle (ensure-initialized,
the loop task observing the start, mark-as-interactive, the entry and return
parts of run() and run_async(), and stop()) moves __state only along the
chain off, ready, active, running or interactive, off -- extended with the
extra edges the code performs, listed in codeEdges: direct jumps off to
active and ready to running; ready and running to interactive; running back
to active on run() return; interactive to running or active when _rc_init
marked interactive during the lazy initialization inside run()/run_async();
and any state to off on teardown. -/
theorem loop_transitions_in_code_edges (m : LoopModel) (rcMark force : Bool)
    (cs : List Canvas) :
    EdgesOK codeEdges m.state (ensureInitializedT rcMark m).2
    ∧ EdgesOK codeEdges m.state (markInteractiveT m).2
    ∧ EdgesOK codeEdges m.state (loopTaskStartT m).2
    ∧ EdgesOK codeEdges m.state (runEnterT rcMark m).2.2
    ∧ EdgesOK codeEdges m.state (runExitT m).2
    ∧ EdgesOK codeEdges m.state (runAsyncEnterT rcMark m).2.2
    ∧ EdgesOK codeEdges m.state (runAsyncExitT m).2
    ∧ EdgesOK codeEdges m.state (stopT force m cs).trace := by
  obtain ⟨st, init, n⟩ := m
  have hnil : ∀ s : LoopState, EdgesOK codeEdges s [] := fun s => by
    cases s <;> decide
  have hoff : ∀ s : LoopState, EdgesOK codeEdges s [LoopState.off] := fun s => by
    cases s <;> decide
  have hstop : EdgesOK codeEdges st (stopT force ⟨st, init, n⟩ cs).trace := by
    unfold stopT
    dsimp only
    split
    · exact hnil st
    · split
      · split
        · exact hoff st
        · exact hnil st
      · split
        · exact hoff st
        · exact hnil st
  refine ⟨?_, ?_, ?_, ?_, ?_, ?_, ?_, hstop⟩ <;>
    cases st <;> cases init <;> cases rcMark <;>
      simp [ensureInitializedT, markInteractiveT, loopTaskStartT, runEnterT, runExitT,
        runAsyncEnterT, runAsyncExitT, EdgesOK, traceEdges, codeEdges, chainEdges]

/-- Witness for loop_transitions_in_code_edges at a concrete model. -/
theorem loop_transitions_in_code_edges_witness :
    EdgesOK codeEdges LoopState.off (runEnterT false ⟨.off, false, 0⟩).2.2 :=
  (loop_transitions_in_code_edges ⟨.off, false, 0⟩ false false []).2.2.2.1

/-- Helper: the value of stopT on a non-off loop, with the sweep spelled
out. -/
theorem stopT_eq (force : Bool) (m : LoopModel) (cs : List Canvas)
    (h : ¬ m.state = .off) :
    stopT force m cs =
      (if (cs.filter (fun c => !c.closed)).length = 0
          ∨ 2 ≤ m.should_stop + (if force then 2 else 1) then
        ⟨⟨.off, m.is_initialized, 0⟩, stopCloseLoop (cs.filter (fun c => !c.closed)),
          (cs.filter (fun c => c.closed)).map canvas_close, true, true, true, [.off]⟩
      else
        ⟨⟨m.state, m.is_initialized, m.should_stop + (if force then 2 else 1)⟩,
          stopCloseLoop (cs.filter (fun c => !c.closed)),
          (cs.filter (fun c => c.closed)).map canvas_close, false, false, false, []⟩) := by
  unfold stopT
  rw [if_neg h]
  rfl

/-- Helper for the interrupt scenario: on a non-off loop with a cleared stop
counter and only open, uncooperative canvases, one stop() call does not tear
down, and a second one does. -/
theorem stop_twice_uncooperative (m : LoopModel) (cs : List Canvas)
    (h : ¬ m.state = .off) (h0 : m.should_stop = 0)
    (hopen : ∀ c ∈ cs, c.closed = false ∧ c.cooperative = false)
    (hne : cs ≠ []) :
    (stopT false m cs).toreDown = false
    ∧ (stopT false (stopT false m cs).model (stopT false m cs).canvases).toreDown = true := by
  have hfilter : cs.filter (fun c => !c.closed) = cs :=
    List.filter_eq_self.mpr (fun c hc => by simp [(hopen c hc).1])
  have hcond : ¬ ((cs.filter (fun c => !c.closed)).length = 0
      ∨ 2 ≤ m.should_stop + (if false then 2 else 1)) := by
    rw [hfilter, h0]
    push_neg
    exact ⟨fun hz => hne (List.length_eq_zero.mp hz), by norm_num⟩
  rw [stopT_eq false m cs h, if_neg hcond]
  refine ⟨rfl, ?_⟩
  rw [stopT_eq false ⟨m.state, m.is_initialized,
      m.should_stop + (if false then 2 else 1)⟩ _ h, if_pos ?_]
  right
  simp [h0]

/-- C5: stop(force) on a non-off loop adds 1 to the stop counter (2 when
force) and closes each canvas at most once (the open canvases through the
close loop guarded by the closed-by-loop mark, the already-closed ones
through the finalizing sweep); real teardown (tasks cancelled, host stop
called, state off, counter cleared) happens exactly when the sweep returned
zero open canvases or the bumped counter reached 2; hence one stop() with
open uncooperative canvases does not tear down while a second one does. -/
theorem stop_semantics (force : Bool) (m : LoopModel) (cs : List Canvas)
    (h : ¬ m.state = .off) :
    ((stopT force m cs).toreDown = true ↔
      ((cs.filter (fun c => !c.closed)).length = 0
        ∨ 2 ≤ m.should_stop + (if force then 2 else 1)))
    ∧ ((stopT force m cs).toreDown = false →
        (stopT force m cs).model
          = ⟨m.state, m.is_initialized, m.should_stop + (if force then 2 else 1)⟩)
    ∧ ((stopT force m cs).toreDown = true →
        (stopT force m cs).model.state = .off
        ∧ (stopT force m cs).model.should_stop = 0
        ∧ (stopT force m cs).cancelledTasks = true
        ∧ (stopT force m cs).rcStopCalled = true)
    ∧ (stopT force m cs).canvases = stopCloseLoop (cs.filter (fun c => !c.closed))
    ∧ (stopT force m cs).sweptOut = (cs.filter (fun c => c.closed)).map canvas_close
    ∧ (∀ c : Canvas,
        (if c.closedByLoop then c
          else canvas_close { c with closedByLoop := true }).closeCalls
          ≤ c.closeCalls + 1
        ∧ (canvas_close c).closeCalls = c.closeCalls + 1)
    ∧ (m.should_stop = 0 →
        (∀ c ∈ cs, c.closed = false ∧ c.cooperative = false) → cs ≠ [] →
        (stopT false m cs).toreDown = false
        ∧ (stopT false (stopT false m cs).model (stopT false m cs).canvases).toreDown
            = true) := by
  have hclose : ∀ c : Canvas,
      (if c.closedByLoop then c
        else canvas_close { c with closedByLoop := true }).closeCalls
        ≤ c.closeCalls + 1
      ∧ (canvas_close c).closeCalls = c.closeCalls + 1 := by
    intro c
    refine ⟨?_, rfl⟩
    by_cases hb : c.closedByLoop <;> simp [hb, canvas_close]
  rw [stopT_eq force m cs h]
  by_cases hc : (cs.filter (fun c => !c.closed)).length = 0
      ∨ 2 ≤ m.should_stop + (if force then 2 else 1)
  · rw [if_pos hc]
    exact ⟨by simpa using hc, by simp, fun _ => ⟨rfl, rfl, rfl, rfl⟩, rfl, rfl, hclose,
      fun h0 hopen hne => stop_twice_uncooperative m cs h h0 hopen hne⟩
  · rw [if_neg hc]
    exact ⟨by simpa using hc, fun _ => rfl, by simp, rfl, rfl, hclose,
      fun h0 hopen hne => stop_twice_uncooperative m cs h h0 hopen hne⟩

/-- Witness for stop_semantics: a running loop with one open uncooperative
canvas; the first stop does not tear down, the second does. -/
theorem stop_semantics_witness :
    (stopT false ⟨.running, true, 0⟩ [⟨false, false, false, 0⟩]).toreDown = false
    ∧ (stopT false
          (stopT false ⟨.running, true, 0⟩ [⟨false, false, false, 0⟩]).model
          (stopT false ⟨.running, true, 0⟩ [⟨false, false, false, 0⟩]).canvases).toreDown
        = true :=
  (stop_semantics false ⟨.running, true, 0⟩ [⟨false, false, false, 0⟩]
    (by decide)).2.2.2.2.2.2 rfl (by decide) (by decide)
